import Mathlib

/-!
Verification of the design-token catalog `src/design/NCDS.hpp`
(namespace `nzt::gui::design`): the `Color` primitive with its
hex-decomposition constructor, the `FontWeight` enumeration, the color
palette, and the component theme aggregates, embedded shallowly in Lean.
Machine integers (`uint8_t`, `uint32_t`) are modelled as `Nat` reduced
modulo `2^8` / `2^32` at the points where the C++ types narrow.
`float` layout constants (all small integral values, exactly
representable) are modelled as rationals.
-/

namespace NCDS

/-- Embeds `struct Color { uint8_t r, g, b, a; }`.
Each channel is a byte, kept as a `Nat`; the constructors below reduce
their arguments mod 256, which is where `uint8_t` narrowing happens. -/
structure Color where
  r : Nat
  g : Nat
  b : Nat
  a : Nat
deriving DecidableEq, Repr

/-- The C++ constructor
`Color(uint8_t red, uint8_t green, uint8_t blue, uint8_t alpha = 255)`
with the alpha argument supplied.  Arguments narrow to `uint8_t`. -/
def Color.make (red green blue alpha : Nat) : Color :=
  ⟨red % 256, green % 256, blue % 256, alpha % 256⟩

/-- The C++ `Color` constructor with the `alpha` argument omitted, so the
default argument `alpha = 255` applies. -/
def Color.makeDefault (red green blue : Nat) : Color :=
  Color.make red green blue 255

/-- `static constexpr Color fromHex(uint32_t hex, uint8_t alpha = 255)`,
alpha supplied.  The `uint32_t` parameter reduces the argument mod `2^32`;
channels are extracted by shift and mask exactly as in the source:
`Color((hex >> 16) & 0xFF, (hex >> 8) & 0xFF, hex & 0xFF, alpha)`. -/
def Color.fromHex (hex alpha : Nat) : Color :=
  Color.make (((hex % 2 ^ 32) >>> 16) &&& 0xFF)
    (((hex % 2 ^ 32) >>> 8) &&& 0xFF) ((hex % 2 ^ 32) &&& 0xFF) alpha

/-- `Color::fromHex` with the `alpha` argument omitted, so the default
argument `alpha = 255` applies. -/
def Color.fromHexDefault (hex : Nat) : Color :=
  Color.fromHex hex 255

/-- Embeds `enum class FontWeight { Regular = 400, Medium = 500, Bold = 700 }`:
the three enumerators. -/
inductive FontWeight where
  | Regular
  | Medium
  | Bold
deriving DecidableEq, Repr

/-- The numeric code assigned to each `FontWeight` enumerator in the source. -/
def FontWeight.toNat : FontWeight → Nat
  | .Regular => 400
  | .Medium => 500
  | .Bold => 700

namespace palette

/-- `constexpr Color Red500 = Color::fromHex(0xEC1D31);` -/
def Red500 : Color := Color.fromHexDefault 0xEC1D31

/-- `constexpr Color Red600 = Color::fromHex(0xCF1722);` -/
def Red600 : Color := Color.fromHexDefault 0xCF1722

/-- `constexpr Color Red700 = Color::fromHex(0xB7131C);` -/
def Red700 : Color := Color.fromHexDefault 0xB7131C

/-- `constexpr Color White = Color::fromHex(0xFFFFFF);` -/
def White : Color := Color.fromHexDefault 0xFFFFFF

/-- `constexpr Color Gray50 = Color::fromHex(0xF8FAFC);` -/
def Gray50 : Color := Color.fromHexDefault 0xF8FAFC

/-- `constexpr Color Gray100 = Color::fromHex(0xF1F5F9);` -/
def Gray100 : Color := Color.fromHexDefault 0xF1F5F9

/-- `constexpr Color Gray200 = Color::fromHex(0xE2E8F0);` -/
def Gray200 : Color := Color.fromHexDefault 0xE2E8F0

/-- `constexpr Color Gray300 = Color::fromHex(0xCBD5E1);` -/
def Gray300 : Color := Color.fromHexDefault 0xCBD5E1

/-- `constexpr Color Gray400 = Color::fromHex(0x94A3B8);` -/
def Gray400 : Color := Color.fromHexDefault 0x94A3B8

/-- `constexpr Color Gray500 = Color::fromHex(0x64748B);` -/
def Gray500 : Color := Color.fromHexDefault 0x64748B

/-- `constexpr Color Gray700 = Color::fromHex(0x334155);` -/
def Gray700 : Color := Color.fromHexDefault 0x334155

/-- `constexpr Color Gray900 = Color::fromHex(0x0F172A);` -/
def Gray900 : Color := Color.fromHexDefault 0x0F172A

/-- `constexpr Color Black = Color::fromHex(0x000000);` -/
def Black : Color := Color.fromHexDefault 0x000000

end palette

namespace tokens

/-- `constexpr float BorderRadiusSmall = 4.0f;` -/
def BorderRadiusSmall : ℚ := 4

/-- `constexpr float BorderRadiusMedium = 8.0f;` -/
def BorderRadiusMedium : ℚ := 8

/-- `constexpr float BorderRadiusLarge = 12.0f;` -/
def BorderRadiusLarge : ℚ := 12

/-- Embeds `struct ButtonTheme`: the five color fields of a button theme. -/
structure ButtonTheme where
  background : Color
  text : Color
  border : Color
  backgroundHover : Color
  backgroundPressed : Color
deriving DecidableEq, Repr

/-- `constexpr ButtonTheme ButtonPrimary { Red500, White, Red500, Red600, Red700 }` -/
def ButtonPrimary : ButtonTheme :=
  ⟨palette.Red500, palette.White, palette.Red500, palette.Red600, palette.Red700⟩

/-- `constexpr ButtonTheme ButtonSecondary { White, Gray700, Gray300, Gray50, Gray100 }` -/
def ButtonSecondary : ButtonTheme :=
  ⟨palette.White, palette.Gray700, palette.Gray300, palette.Gray50, palette.Gray100⟩

/-- `constexpr float ButtonHeightMD = 44.0f;` -/
def ButtonHeightMD : ℚ := 44

/-- `constexpr float ButtonHeightSM = 36.0f;` -/
def ButtonHeightSM : ℚ := 36

/-- `constexpr float ButtonHeightXS = 30.0f;` -/
def ButtonHeightXS : ℚ := 30

/-- Embeds `struct InputTheme`: the six color fields of the input theme. -/
structure InputTheme where
  background : Color
  text : Color
  placeholder : Color
  border : Color
  borderFocus : Color
  borderError : Color
deriving DecidableEq, Repr

/-- `constexpr InputTheme InputDefault { White, Gray900, Gray400, Gray200, Red500, Red500 }` -/
def InputDefault : InputTheme :=
  ⟨palette.White, palette.Gray900, palette.Gray400, palette.Gray200,
    palette.Red500, palette.Red500⟩

end tokens

/-- Masking a natural number with `0xFF` is reduction mod 256. -/
theorem and255_eq_mod (x : Nat) : x &&& 0xFF = x % 256 := by
  have h := Nat.and_pow_two_sub_one_eq_mod x 8
  norm_num at h
  exact h

/-- Masking a natural number with `0xFFFFFF` is reduction mod `2^24`. -/
theorem and24_eq_mod (x : Nat) : x &&& 0xFFFFFF = x % 2 ^ 24 := by
  have h := Nat.and_pow_two_sub_one_eq_mod x 24
  norm_num at h
  exact h

/-- Claim C1: for every 24-bit hex input `h` and every byte alpha `a`,
`Color.fromHex h a` has red channel `(h >>> 16) &&& 0xFF`, green channel
`(h >>> 8) &&& 0xFF`, blue channel `h &&& 0xFF`, and alpha channel `a`;
in particular `fromHex 0xEC1D31` with the default alpha is
`Color.make 236 29 49 255`. -/
theorem fromHex_channels (h a : Nat) (hh : h < 2 ^ 24) (ha : a < 256) :
    (Color.fromHex h a).r = (h >>> 16) &&& 0xFF ∧
    (Color.fromHex h a).g = (h >>> 8) &&& 0xFF ∧
    (Color.fromHex h a).b = h &&& 0xFF ∧
    (Color.fromHex h a).a = a ∧
    Color.fromHexDefault 0xEC1D31 = Color.make 236 29 49 255 := by
  refine ⟨?_, ?_, ?_, ?_, by decide⟩
  · simp only [Color.fromHex, Color.make, and255_eq_mod, Nat.shiftRight_eq_div_pow]
    norm_num
    omega
  · simp only [Color.fromHex, Color.make, and255_eq_mod, Nat.shiftRight_eq_div_pow]
    norm_num
    omega
  · simp only [Color.fromHex, Color.make, and255_eq_mod]
    omega
  · simp only [Color.fromHex, Color.make]
    omega

/-- Claim C1 witness at `h = 0xEC1D31`, `a = 200`. -/
theorem fromHex_channels_witness :
    (0xEC1D31 < 2 ^ 24 ∧ 200 < 256) ∧
    ((Color.fromHex 0xEC1D31 200).r = (0xEC1D31 >>> 16) &&& 0xFF ∧
     (Color.fromHex 0xEC1D31 200).g = (0xEC1D31 >>> 8) &&& 0xFF ∧
     (Color.fromHex 0xEC1D31 200).b = 0xEC1D31 &&& 0xFF ∧
     (Color.fromHex 0xEC1D31 200).a = 200 ∧
     Color.fromHexDefault 0xEC1D31 = Color.make 236 29 49 255) :=
  ⟨⟨by decide, by decide⟩, fromHex_channels 0xEC1D31 200 (by decide) (by decide)⟩

/-- Claim C2: `Color.fromHex` is total over all 32-bit inputs: for every
32-bit `h` and byte alpha `a` every channel of the result is a valid byte
(below 256), and bits of `h` above the low 24 do not affect the result:
`fromHex h a = fromHex (h &&& 0xFFFFFF) a`. -/
theorem fromHex_total_ignores_high_bits (h a : Nat) (hh : h < 2 ^ 32) (ha : a < 256) :
    (Color.fromHex h a).r < 256 ∧ (Color.fromHex h a).g < 256 ∧
    (Color.fromHex h a).b < 256 ∧ (Color.fromHex h a).a < 256 ∧
    Color.fromHex h a = Color.fromHex (h &&& 0xFFFFFF) a := by
  have h32 : h % 2 ^ 32 = h := Nat.mod_eq_of_lt hh
  refine ⟨?_, ?_, ?_, ?_, ?_⟩
  · exact Nat.mod_lt _ (by norm_num)
  · exact Nat.mod_lt _ (by norm_num)
  · exact Nat.mod_lt _ (by norm_num)
  · exact Nat.mod_lt _ (by norm_num)
  · simp only [Color.fromHex, Color.make, and24_eq_mod, and255_eq_mod,
      Nat.shiftRight_eq_div_pow, Color.mk.injEq, h32]
    have hm : h % 2 ^ 24 % 2 ^ 32 = h % 2 ^ 24 :=
      Nat.mod_eq_of_lt (lt_trans (Nat.mod_lt _ (by norm_num)) (by norm_num))
    rw [hm]
    norm_num
    omega

/-- Claim C2 witness at `h = 0xAB123456`, `a = 7`. -/
theorem fromHex_total_ignores_high_bits_witness :
    (0xAB123456 < 2 ^ 32 ∧ 7 < 256) ∧
    ((Color.fromHex 0xAB123456 7).r < 256 ∧ (Color.fromHex 0xAB123456 7).g < 256 ∧
     (Color.fromHex 0xAB123456 7).b < 256 ∧ (Color.fromHex 0xAB123456 7).a < 256 ∧
     Color.fromHex 0xAB123456 7 = Color.fromHex (0xAB123456 &&& 0xFFFFFF) 7) :=
  ⟨⟨by decide, by decide⟩,
    fromHex_total_ignores_high_bits 0xAB123456 7 (by decide) (by decide)⟩

/-- Claim C3: constructing a `Color` without an alpha argument — through the
`Color` constructor or through `fromHex` with the alpha parameter omitted —
yields alpha exactly 255, for every choice of the other arguments. -/
theorem default_alpha_is_255 (red green blue hex : Nat) :
    (Color.makeDefault red green blue).a = 255 ∧
    (Color.fromHexDefault hex).a = 255 := by
  constructor
  · simp [Color.makeDefault, Color.make]
  · simp [Color.fromHexDefault, Color.fromHex, Color.make]

/-- Claim C4: the named palette constants decompose into the channels of
their documented hex literals: `Red500 = (236, 29, 49, 255)`,
`White = (255, 255, 255, 255)`, `Black = (0, 0, 0, 255)`. -/
theorem palette_matches_hex_literals :
    palette.Red500 = Color.make 236 29 49 255 ∧
    palette.White = Color.make 255 255 255 255 ∧
    palette.Black = Color.make 0 0 0 255 := by
  decide

/-- Claim C5: the theme aggregates reference the documented palette
constants field-for-field: `ButtonPrimary.background = Red500`,
`ButtonPrimary.backgroundHover = Red600`,
`ButtonPrimary.backgroundPressed = Red700`,
`ButtonSecondary.background = White`. -/
theorem theme_fields_reference_palette :
    tokens.ButtonPrimary.background = palette.Red500 ∧
    tokens.ButtonPrimary.backgroundHover = palette.Red600 ∧
    tokens.ButtonPrimary.backgroundPressed = palette.Red700 ∧
    tokens.ButtonSecondary.background = palette.White := by
  decide

/-- Claim C6: the `FontWeight` enumeration values equal their documented
numeric codes (Regular = 400, Medium = 500, Bold = 700), and these three
are the only members of the enumeration. -/
theorem fontWeight_codes_and_closed :
    FontWeight.Regular.toNat = 400 ∧
    FontWeight.Medium.toNat = 500 ∧
    FontWeight.Bold.toNat = 700 ∧
    ∀ w : FontWeight,
      w = FontWeight.Regular ∨ w = FontWeight.Medium ∨ w = FontWeight.Bold := by
  refine ⟨rfl, rfl, rfl, ?_⟩
  intro w
  cases w
  · exact Or.inl rfl
  · exact Or.inr (Or.inl rfl)
  · exact Or.inr (Or.inr rfl)

/-- Claim C7: the scalar layout constants keep their documented magnitudes
and strict relative ordering: ButtonHeightXS < ButtonHeightSM <
ButtonHeightMD (30 < 36 < 44) and BorderRadiusSmall < BorderRadiusMedium <
BorderRadiusLarge (4 < 8 < 12). -/
theorem layout_constants_ordered :
    tokens.ButtonHeightXS = 30 ∧ tokens.ButtonHeightSM = 36 ∧
    tokens.ButtonHeightMD = 44 ∧
    tokens.ButtonHeightXS < tokens.ButtonHeightSM ∧
    tokens.ButtonHeightSM < tokens.ButtonHeightMD ∧
    tokens.BorderRadiusSmall = 4 ∧ tokens.BorderRadiusMedium = 8 ∧
    tokens.BorderRadiusLarge = 12 ∧
    tokens.BorderRadiusSmall < tokens.BorderRadiusMedium ∧
    tokens.BorderRadiusMedium < tokens.BorderRadiusLarge := by
  refine ⟨rfl, rfl, rfl, ?_, ?_, rfl, rfl, rfl, ?_, ?_⟩ <;>
    norm_num [tokens.ButtonHeightXS, tokens.ButtonHeightSM, tokens.ButtonHeightMD,
      tokens.BorderRadiusSmall, tokens.BorderRadiusMedium, tokens.BorderRadiusLarge]

/-- Claim C8 counterexample: the claim quantifies over every channel of the
colors, but the alpha channels of Red500, Red600 and Red700 are all 255, so
the alpha channel of Red500 is not strictly greater than that of Red600,
refuting the claim as stated. -/
theorem red_ramp_not_strict_on_all_channels :
    ¬ ((palette.Red500.r > palette.Red600.r ∧ palette.Red500.g > palette.Red600.g ∧
        palette.Red500.b > palette.Red600.b ∧ palette.Red500.a > palette.Red600.a) ∧
       (palette.Red600.r > palette.Red700.r ∧ palette.Red600.g > palette.Red700.g ∧
        palette.Red600.b > palette.Red700.b ∧ palette.Red600.a > palette.Red700.a)) := by
  decide

/-- Claim C8 amended: every color channel (red, green, blue) of Red500 is
strictly greater than the corresponding channel of Red600, and likewise
from Red600 to Red700; the alpha channels are all equal (255). -/
theorem red_ramp_rgb_strictly_decreasing :
    (palette.Red500.r > palette.Red600.r ∧ palette.Red500.g > palette.Red600.g ∧
     palette.Red500.b > palette.Red600.b ∧ palette.Red500.a = palette.Red600.a) ∧
    (palette.Red600.r > palette.Red700.r ∧ palette.Red600.g > palette.Red700.g ∧
     palette.Red600.b > palette.Red700.b ∧ palette.Red600.a = palette.Red700.a) := by
  decide

/-- Claim C9: the primary button border equals its background — both are
`palette.Red500` — a relation the spec field listing does not state. -/
theorem buttonPrimary_border_eq_background :
    tokens.ButtonPrimary.border = tokens.ButtonPrimary.background ∧
    tokens.ButtonPrimary.border = palette.Red500 := by
  decide

/-- Claim C10: the input theme focus border equals its error border — both
are `palette.Red500` — although focus and error are distinct interaction
states. -/
theorem inputDefault_focus_eq_error :
    tokens.InputDefault.borderFocus = tokens.InputDefault.borderError ∧
    tokens.InputDefault.borderFocus = palette.Red500 := by
  decide

end NCDS
